import Mathlib

/-!
Verification of the Declaration-Style Checker (an ESLint rule plugin).

The rule lives in `src/lib/rules/my-rule.js`:

  const plugin = {
    meta: {
      type: "problem",
      docs: {
        description: "disallow the use of 'var'",
        category: "Best Practices",
        recommended: true,
      },
      schema: [],
    },
    create: function (context) {
      return {
        VariableDeclaration: function (node) {
          if (node.kind === "var") {
            context.report(node, "Unexpected var, use let or const instead.");
          }
        },
      };
    },
  };

Embedding choices:
- A `VariableDeclaration` AST node is modelled by `Node`: its binding-kind
  attribute is `kind : Option String` (`none` models an absent / undefined
  attribute; JavaScript strict equality `undefined === "var"` is `false`,
  which the `Option` comparison reproduces); `declarations` carries the
  declarator names so distinct declarations are distinct nodes.
- The only observable effect of the handler is the sequence of calls it makes
  to `context.report`.  That effect is made explicit by threading a
  `ReportLog` (the list of diagnostics emitted so far in the traversal):
  `report` appends one diagnostic, and the handler is a state transformer
  `Node → ReportLog → ReportLog`.
- `create` returns the visitor mapping as an association list from
  node-kind identifiers to handlers, mirroring the returned JS object.
-/

/-- A variable-declaration syntax node.  `kind` is the binding-kind attribute
(`"var"`, `"let"`, `"const"`), `none` when the attribute is absent;
`declarations` lists the declared names. -/
structure Node where
  kind : Option String
  declarations : List String
deriving DecidableEq, Repr

/-- A single reported problem: the offending node and the message string
passed to `context.report`. -/
structure Diagnostic where
  node : Node
  message : String
deriving DecidableEq, Repr

/-- The diagnostics emitted so far: the state updated by `context.report`. -/
abbrev ReportLog := List Diagnostic

/-- The engine's reporting interface, `context.report(node, message)`:
records one diagnostic. -/
def report (node : Node) (message : String) (log : ReportLog) : ReportLog :=
  log ++ [⟨node, message⟩]

/-- The fixed message of the rule. -/
def varMessage : String := "Unexpected var, use let or const instead."

/-- The `VariableDeclaration` handler from `create`:
`if (node.kind === "var") context.report(node, "Unexpected var, use let or const instead.");` -/
def VariableDeclaration (node : Node) (log : ReportLog) : ReportLog :=
  if node.kind = some "var" then
    report node varMessage log
  else
    log

/-- The reporting context handed to `create` by the engine.  Its only
capability used by this rule, `report`, is threaded explicitly as the
`ReportLog` state, so the context itself carries no further data. -/
inductive Context where
  | mk
deriving DecidableEq, Repr

/-- A visitor: a handler invoked per syntax node, observing and extending the
diagnostics log. -/
abbrev Handler := Node → ReportLog → ReportLog

/-- The `create` factory: returns the mapping from syntax-node-kind
identifiers to handler functions.  The JS object literal
`{ VariableDeclaration: function (node) {...} }` becomes a one-entry
association list. -/
def create (_context : Context) : List (String × Handler) :=
  [("VariableDeclaration", VariableDeclaration)]

/-- The `docs` sub-object of the rule metadata. -/
structure Docs where
  description : String
  category : String
  recommended : Bool
deriving DecidableEq, Repr

/-- The rule metadata object `meta`.  The options schema is the empty array
`schema: []`; its entries (JSON schema objects) are never inspected, so the
element type is left abstract as `Unit`. -/
structure RuleMeta where
  type : String
  docs : Docs
  schema : List Unit
deriving DecidableEq, Repr

/-- The `meta` field of the plugin descriptor. -/
def ruleMeta : RuleMeta :=
  { type := "problem"
    docs :=
      { description := "disallow the use of \x27var\x27"
        category := "Best Practices"
        recommended := true }
    schema := [] }

/-- The engine's traversal: visit the declaration nodes in order, invoking the
registered handler on each and threading the diagnostics log. -/
def runTraversal (nodes : List Node) (log : ReportLog) : ReportLog :=
  nodes.foldl (fun l n => VariableDeclaration n l) log

/-- The diagnostics one handler invocation emits, on its own. -/
def emitted (node : Node) : List Diagnostic :=
  VariableDeclaration node []

/- ### Helper lemmas -/

/-- One handler invocation appends its own emissions to the incoming log,
whatever that log is. -/
theorem VariableDeclaration_append (node : Node) (log : ReportLog) :
    VariableDeclaration node log = log ++ emitted node := by
  by_cases h : node.kind = some "var" <;>
    simp [VariableDeclaration, emitted, report, h]

/- ### Claims -/

/-- C1: for every declaration node whose binding-kind attribute equals
`"var"`, a single invocation of the `VariableDeclaration` handler calls the
reporting interface exactly once, passing that node and exactly the message
`"Unexpected var, use let or const instead."`. -/
theorem C1_var_reports_once (node : Node) (log : ReportLog)
    (h : node.kind = some "var") :
    VariableDeclaration node log = log ++ [⟨node, varMessage⟩] := by
  unfold VariableDeclaration report
  simp [h]

/-- Witness for C1 at the node for `var z = 15;`. -/
theorem C1_var_reports_once_witness :
    VariableDeclaration ⟨some "var", ["z"]⟩ [] =
      [⟨⟨some "var", ["z"]⟩, varMessage⟩] := by
  have h := C1_var_reports_once ⟨some "var", ["z"]⟩ [] rfl
  simpa using h

/-- C2: for every declaration node whose binding-kind attribute is `"let"` or
`"const"`, an invocation of the `VariableDeclaration` handler makes no call to
the reporting interface: the log is unchanged. -/
theorem C2_let_const_no_report (node : Node) (log : ReportLog)
    (h : node.kind = some "let" ∨ node.kind = some "const") :
    VariableDeclaration node log = log := by
  unfold VariableDeclaration
  rcases h with h | h <;> simp [h]

/-- Witness for C2 at the nodes for `let x = 5;` and `const y = 10;`. -/
theorem C2_let_const_no_report_witness :
    VariableDeclaration ⟨some "let", ["x"]⟩ [] = [] ∧
      VariableDeclaration ⟨some "const", ["y"]⟩ [] = [] :=
  ⟨C2_let_const_no_report ⟨some "let", ["x"]⟩ [] (Or.inl rfl),
   C2_let_const_no_report ⟨some "const", ["y"]⟩ [] (Or.inr rfl)⟩

/-- C3: a single invocation of the `VariableDeclaration` handler invokes the
reporting interface at most once: the log grows by at most one diagnostic. -/
theorem C3_at_most_one_report (node : Node) (log : ReportLog) :
    (VariableDeclaration node log).length ≤ log.length + 1 := by
  unfold VariableDeclaration report
  by_cases h : node.kind = some "var" <;> simp [h]

/-- C4: the `create` factory, for every reporting context, returns a mapping
registering exactly one handler, keyed `"VariableDeclaration"`, and no other
node kinds. -/
theorem C4_create_single_handler (context : Context) :
    create context = [("VariableDeclaration", VariableDeclaration)] ∧
      (create context).length = 1 ∧
      (create context).map Prod.fst = ["VariableDeclaration"] :=
  ⟨rfl, rfl, rfl⟩

/-- C5: the handler is a stateless pure classification: its result is the
incoming log extended by emissions that depend only on the node, so two
independent invocations on the same node produce the same diagnostic outcome,
unaffected by previously accumulated diagnostics; and the emitted outcome
depends only on the node's binding-kind attribute (equal kinds give equally
many diagnostics with the same messages). -/
theorem C5_stateless_pure (node node' : Node) (log log' : ReportLog)
    (hkind : node.kind = node'.kind) :
    (VariableDeclaration node log = log ++ emitted node ∧
      VariableDeclaration node log' = log' ++ emitted node) ∧
      (emitted node).map Diagnostic.message =
        (emitted node').map Diagnostic.message := by
  refine ⟨⟨VariableDeclaration_append node log,
    VariableDeclaration_append node log'⟩, ?_⟩
  unfold emitted VariableDeclaration report
  rw [hkind]
  by_cases h : node'.kind = some "var" <;> simp [h]

/-- Witness for C5: two nodes with kind `"var"` but different declarators. -/
theorem C5_stateless_pure_witness :
    (VariableDeclaration ⟨some "var", ["a"]⟩
        [⟨⟨some "var", ["p"]⟩, varMessage⟩] =
      [⟨⟨some "var", ["p"]⟩, varMessage⟩] ++ emitted ⟨some "var", ["a"]⟩ ∧
      VariableDeclaration ⟨some "var", ["a"]⟩ [] =
        [] ++ emitted ⟨some "var", ["a"]⟩) ∧
      (emitted ⟨some "var", ["a"]⟩).map Diagnostic.message =
        (emitted ⟨some "var", ["b"]⟩).map Diagnostic.message :=
  C5_stateless_pure ⟨some "var", ["a"]⟩ ⟨some "var", ["b"]⟩
    [⟨⟨some "var", ["p"]⟩, varMessage⟩] [] rfl

/-- C6: traversing two declaration nodes of binding-kind `"var"` in sequence
(`var a = 1; var b = 2;`) emits exactly two diagnostics, one per node, each
with the fixed message. -/
theorem C6_two_vars_two_diagnostics (na nb : Node)
    (ha : na.kind = some "var") (hb : nb.kind = some "var") :
    runTraversal [na, nb] [] = [⟨na, varMessage⟩, ⟨nb, varMessage⟩] := by
  unfold runTraversal VariableDeclaration report
  simp [ha, hb]

/-- Witness for C6 at the nodes for `var a = 1; var b = 2;`. -/
theorem C6_two_vars_two_diagnostics_witness :
    runTraversal [⟨some "var", ["a"]⟩, ⟨some "var", ["b"]⟩] [] =
      [⟨⟨some "var", ["a"]⟩, varMessage⟩, ⟨⟨some "var", ["b"]⟩, varMessage⟩] :=
  C6_two_vars_two_diagnostics ⟨some "var", ["a"]⟩ ⟨some "var", ["b"]⟩ rfl rfl

/-- C7: the rule metadata consists of severity classification `"problem"`, a
human-readable description, a category tag, the recommended flag set, and an
empty options schema. -/
theorem C7_meta_shape :
    ruleMeta.type = "problem" ∧
      ruleMeta.docs.description = "disallow the use of \x27var\x27" ∧
      ruleMeta.docs.description ≠ "" ∧
      ruleMeta.docs.category = "Best Practices" ∧
      ruleMeta.docs.recommended = true ∧
      ruleMeta.schema = [] := by
  refine ⟨rfl, rfl, ?_, rfl, rfl, rfl⟩
  decide

/-- C8: under the precondition that the node carries a binding-kind attribute,
the handler cannot fail and its only effect is at most one reporting call:
the log is either unchanged or extended by exactly the one diagnostic. -/
theorem C8_no_failure_one_effect (node : Node) (log : ReportLog)
    (h : ∃ k, node.kind = some k) :
    VariableDeclaration node log = log ∨
      VariableDeclaration node log = log ++ [⟨node, varMessage⟩] := by
  obtain ⟨k, hk⟩ := h
  unfold VariableDeclaration report
  by_cases hv : node.kind = some "var" <;> simp [hv]

/-- Witness for C8 at a `"let"` node. -/
theorem C8_no_failure_one_effect_witness :
    VariableDeclaration ⟨some "let", ["x"]⟩ [] = [] ∨
      VariableDeclaration ⟨some "let", ["x"]⟩ [] =
        [] ++ [⟨⟨some "let", ["x"]⟩, varMessage⟩] :=
  C8_no_failure_one_effect ⟨some "let", ["x"]⟩ [] ⟨"let", rfl⟩

/-- C9: the handler is total even on malformed input: a node whose
binding-kind attribute is absent produces zero diagnostics, because the
strict equality comparison with `"var"` evaluates to false. -/
theorem C9_absent_kind_no_report (declarations : List String)
    (log : ReportLog) :
    VariableDeclaration ⟨none, declarations⟩ log = log := by
  unfold VariableDeclaration
  simp

/-- C10: the disallowed-value test is an exact string equality with `"var"`:
any other binding-kind string emits zero diagnostics. -/
theorem C10_exact_match_only (node : Node) (log : ReportLog) (s : String)
    (hs : node.kind = some s) (hne : s ≠ "var") :
    VariableDeclaration node log = log := by
  unfold VariableDeclaration
  simp [hs, hne]

/-- Witness for C10 at kind `"Var"` (wrong case). -/
theorem C10_exact_match_only_witness :
    VariableDeclaration ⟨some "Var", ["z"]⟩ [] = [] :=
  C10_exact_match_only ⟨some "Var", ["z"]⟩ [] "Var" rfl (by decide)
